import Mathlib

/-!
Verification of the `simple-tiktok-uploader` upload core (`src/ts/src/uploader.ts`)

Shallow embedding of the TypeScript upload state machine.  Pure helpers
(`parseSession`, `validateVideo`, `findPostButton`, the polling arithmetic of
`waitForUploadComplete`) are translated directly.  The effectful Playwright /
Node capabilities (filesystem, browser, page) are modelled as oracles: a
`FileSystem` record for `fs`/`path`, and a `World` record fixing, for one
upload invocation, the observable answers of every awaited browser call
(page URLs, element visibility, button candidates) together with, for each
awaited call, whether that call rejects — the spec itself notes that browser
calls can fail ("failures here are fatal/unretried (environment failure)").
Each modelled upload run yields the list of performed browser actions (an
event trace) together with its result (`Except UploadError UploadResult`,
errors modelling thrown exceptions).

Numeric conventions: byte counts and milliseconds are `Nat`; the progress
arithmetic of `waitForUploadComplete` (`Math.min`/`Math.round` over an IEEE
division) is modelled exactly in `ℚ` — the quantities involved are small
integers divided by the timeout, where double rounding and exact rational
arithmetic agree on everything the theorems below state (monotonicity, the
95 cap, and the concrete values at the default 60 s timeout).
-/

/-! Section: JSON values (results of `JSON.parse`) -/

/-- Runtime JSON values as produced by `JSON.parse`.  Numbers are modelled as
`ℚ` (the relevant values are small and exact). -/
inductive Json where
  | null
  | bool (b : Bool)
  | num (q : ℚ)
  | str (s : String)
  | arr (elems : List Json)
  | obj (fields : List (String × Json))

/-- Cookie record shape from `types.ts` (`interface Cookie`). -/
structure Cookie where
  name : String
  value : String
  domain : String
  path : String
deriving DecidableEq

/-- A cookie record as the JSON object `{name, value, domain, path}`. -/
def cookieJson (c : Cookie) : Json :=
  Json.obj [("name", Json.str c.name), ("value", Json.str c.value),
            ("domain", Json.str c.domain), ("path", Json.str c.path)]

/-! Section: Session codec (`parseSession`, uploader.ts:60-77)

The composite `Buffer.from(session, 'base64').toString('utf-8')` +
`JSON.parse` pipeline is an opaque Node capability; it is modelled as a
decoder oracle `decode : String → Option Json` (`none` models the thrown
`SyntaxError` caught by the `try`).  The source then keeps the parsed value
exactly when `Array.isArray(cookies)` holds — with **no** per-element
validation (the `Cookie[]` cast is unchecked) — and otherwise synthesizes the
two raw-sessionid cookies. -/

/-- Translation of `parseSession`: on a decoded JSON array, return its
elements unchanged; on any decode failure or non-array, synthesize the two
`sessionid`/`sessionid_ss` records carrying the raw string. -/
def parseSession (decode : String → Option Json) (session : String) : List Json :=
  match decode session with
  | some (Json.arr cookies) => cookies
  | _ =>
    [cookieJson ⟨"sessionid", session, ".tiktok.com", "/"⟩,
     cookieJson ⟨"sessionid_ss", session, ".tiktok.com", "/"⟩]

/-- Decoder oracle value modelling the real Node pipeline at the single input
`"WzFd"`: `Buffer.from("WzFd", 'base64').toString('utf-8') = "[1]"` and
`JSON.parse "[1]"` yields the one-element array `[1]`. -/
def decodeWzFd : String → Option Json :=
  fun s => if s = "WzFd" then some (Json.arr [Json.num 1]) else none

/-! Section: Constants from `types.ts` -/

def SUPPORTED_FORMATS : List String := [".mp4", ".mov", ".webm"]

def MAX_VIDEO_SIZE_MB : Nat := 287

def TIKTOK_UPLOAD_URL : String := "https://www.tiktok.com/creator-center/upload?lang=en"

def TIKTOK_BASE_URL : String := "https://www.tiktok.com/"

/-! Section: Character-level string helpers

Node/JS string primitives (`toLowerCase`, `trim`, `includes`) are modelled by
structurally recursive functions over `List Char` so that concrete runs are
computable by the kernel; for the ASCII strings the uploader manipulates they
agree with the JS semantics. -/

/-- JS `toLowerCase` (ASCII range, which covers every comparison the source
performs: extensions and the fixed `"login"` needle). -/
def toLowerJs (s : String) : String := String.mk (s.toList.map Char.toLower)

/-- JS `trim`: strip leading and trailing whitespace. -/
def trimJs (s : String) : String :=
  String.mk (((s.toList.dropWhile Char.isWhitespace).reverse.dropWhile
    Char.isWhitespace).reverse)

/-- Decide whether `pat` is a prefix of `cs`. -/
def leadsWith : List Char → List Char → Bool
  | [], _ => true
  | _ :: _, [] => false
  | p :: ps, c :: cs => p == c && leadsWith ps cs

/-- Decide whether `pat` occurs as a contiguous substring. -/
def charsIncludes (pat : List Char) : List Char → Bool
  | [] => leadsWith pat []
  | c :: cs => leadsWith pat (c :: cs) || charsIncludes pat cs

/-- JS `String.prototype.includes`. -/
def strIncludes (s pat : String) : Bool := charsIncludes pat.toList s.toList

/-! Section: Path/extension helpers (Node `path.extname` on resolved paths) -/

/-- Basename characters: everything after the last `/`. -/
def afterLastSlash (cs : List Char) : List Char :=
  cs.foldl (fun acc c => if c = '/' then [] else acc ++ [c]) []

/-- Node's `path.extname` on an already-resolved (slash-separated) path: the
suffix of the basename from its last dot; empty when the basename has no dot,
when its only dot is the leading character (dotfiles), or for `".."`. -/
def extname (p : String) : String :=
  let base := afterLastSlash p.toList
  if base = ['.', '.'] then ""
  else
    let revAfter := base.reverse.takeWhile (fun c => c ≠ '.')
    if revAfter.length + 1 ≥ base.length then ""
    else String.mk ('.' :: revAfter.reverse)

/-! Section: Filesystem oracle and asset validation (`validateVideo`, uploader.ts:82-103) -/

/-- Oracle for the `fs`/`path` capabilities used by `validateVideo`:
`path.resolve`, `fs.existsSync`, and `fs.statSync(...).size` (bytes). -/
structure FileSystem where
  resolve : String → String
  existsSync : String → Bool
  sizeBytes : String → Nat

/-- Typed failures (`errors.ts`), plus `jsError` for a non-typed exception
thrown by an awaited browser/Node call (a plain `Error`). -/
inductive UploadError where
  | loginRequired
  | sessionExpired
  | uploadFailed (message : String) (screenshotPath : Option String)
  | videoNotFound (path : String)
  | videoTooLarge (sizeBytes : Nat)
  | unsupportedFormat (extension : String)
  | jsError (message : String)
deriving DecidableEq

/-- Size check of `validateVideo`: `stats.size / (1024*1024) > MAX_VIDEO_SIZE_MB`
computed in `ℚ` (the source's double division by `2^20` is exact). -/
def tooLargeMb (bytes : Nat) : Bool :=
  decide ((bytes : ℚ) / (1024 * 1024) > (MAX_VIDEO_SIZE_MB : ℚ))

/-- Translation of `validateVideo`: existence, then format (lower-cased
extension against the whitelist), then size; first violation reported. -/
def validateVideo (fs : FileSystem) (videoPath : String) : Except UploadError String :=
  let resolvedPath := fs.resolve videoPath
  if ¬ fs.existsSync resolvedPath then
    Except.error (UploadError.videoNotFound resolvedPath)
  else
    let ext := toLowerJs (extname resolvedPath)
    if ¬ SUPPORTED_FORMATS.contains ext then
      Except.error (UploadError.unsupportedFormat ext)
    else if tooLargeMb (fs.sizeBytes resolvedPath) then
      Except.error (UploadError.videoTooLarge (fs.sizeBytes resolvedPath))
    else
      Except.ok resolvedPath

/-! Section: Element-visibility oracle -/

/-- Outcome of one `locator(...).isVisible({timeout})` attempt: visible,
not visible, or the call threw (caught by the surrounding `try`). -/
inductive VisRes where
  | vis
  | notVis
  | err
deriving DecidableEq

/-! Section: Submit-control resolver (`findPostButton`, uploader.ts:149-171) -/

/-- Bounding box as returned by `boundingBox()`; layout units are `ℚ`. -/
structure BoundingBox where
  x : ℚ
  y : ℚ
  width : ℚ
  height : ℚ
deriving DecidableEq

/-- One candidate from `page.locator('button').filter({hasText: 'Post'}).all()`:
its `textContent()` (none models `null`), its `boundingBox()` (none models
`null`), and whether reading either throws (caught and skipped). -/
structure ButtonCandidate where
  textContent : Option String
  boundingBox : Option BoundingBox
  throws : Bool
deriving DecidableEq

/-- Translation of the `findPostButton` candidate scan: first candidate whose
reads succeed, whose trimmed text is exactly `"Post"`, and whose box is
non-null with width strictly above 100; `none` models the `null` return. -/
def findPostButtonFrom : List ButtonCandidate → Option ButtonCandidate
  | [] => none
  | btn :: rest =>
    if btn.throws then findPostButtonFrom rest
    else
      match btn.boundingBox with
      | some box =>
        if trimJs (btn.textContent.getD "") = "Post" ∧ box.width > 100 then some btn
        else findPostButtonFrom rest
      | none => findPostButtonFrom rest

/-- Characterization of an acceptable candidate: readable, exact trimmed text
`"Post"`, non-null box of width strictly above 100. -/
def isRealPostButton (btn : ButtonCandidate) : Bool :=
  !btn.throws &&
  trimJs (btn.textContent.getD "") == "Post" &&
  (match btn.boundingBox with
   | some box => decide (box.width > 100)
   | none => false)

/-! Section: Event traces -/

/-- Observable browser actions of one upload invocation, in order. -/
inductive Ev where
  | progress (value : Int)
  | launchBrowser
  | closeBrowser
  | newContext
  | gotoBase
  | addCookies
  | gotoUpload
  | attachFile (path : String)
  | probeModal (label : String)
  | clickModal (label : String)
  | fillDescription (text : String)
  | clickPost
  | pollTick (i : Nat)
  | screenshot (path : String)
  | wait (ms : Nat)
deriving DecidableEq

/-- Progress percentages reported to `onProgress`, in order. -/
def progressValues (evs : List Ev) : List Int :=
  evs.filterMap fun e => match e with | Ev.progress n => some n | _ => none

/-- Count of events satisfying `p` in a trace. -/
def countEv (p : Ev → Bool) (evs : List Ev) : Nat := evs.countP p

def isLaunchEv : Ev → Bool
  | Ev.launchBrowser => true
  | _ => false

def isCloseEv : Ev → Bool
  | Ev.closeBrowser => true
  | _ => false

def isGotoUploadEv : Ev → Bool
  | Ev.gotoUpload => true
  | _ => false

def isPollTickEv : Ev → Bool
  | Ev.pollTick _ => true
  | _ => false

/-! Section: Modal dismissal (`dismissModals`, uploader.ts:126-144) -/

def modalButtons : List String := ["Cancel", "Not now", "Close", "Skip", "Got it"]

/-- Scan of the label list: probe each label's visibility in order; on the
first visible one, click it and pause 500 ms, then return (no further labels
probed).  `VisRes.err` models any exception in the `try` body (caught,
`continue`). -/
def dismissScan (visible : String → VisRes) : List String → List Ev
  | [] => []
  | label :: rest =>
    match visible label with
    | VisRes.vis => [Ev.probeModal label, Ev.clickModal label, Ev.wait 500]
    | _ => Ev.probeModal label :: dismissScan visible rest

/-- Translation of `dismissModals`.  Its TypeScript return type is
`Promise<void>`: the function resolves with `undefined` on every path, so the
modelled return value is `Unit`; the trace records its page actions. -/
def dismissModals (visible : String → VisRes) : List Ev × Unit :=
  (dismissScan visible modalButtons, ())

/-! Section: Completion polling (`waitForUploadComplete`, uploader.ts:176-213) -/

/-- URL success test: `url.includes('/content') || url.includes('/posts')`. -/
def isSuccessUrl (url : String) : Bool :=
  strIncludes url "/content" || strIncludes url "/posts"

/-- JS `Math.round`: round half toward positive infinity. -/
def jsRound (q : ℚ) : Int := ⌊q + 1 / 2⌋

/-- Per-tick progress: `Math.round(Math.min(95, ((i + 1) * 5 * 100) / timeoutSeconds))`. -/
def tickProgress (timeoutSeconds : Nat) (i : Nat) : Int :=
  jsRound (min 95 ((((i : ℚ) + 1) * 5 * 100) / (timeoutSeconds : ℚ)))

/-- Oracle for the polling loop: the page URL read at tick `i`, and the
exit-confirmation dialog's visibility probe at tick `i`. -/
structure PollEnv where
  url : Nat → String
  exitModal : Nat → VisRes

/-- One-to-one translation of the `for` loop body of `waitForUploadComplete`:
at tick `i` (after the 5 s wait, recorded as `pollTick i`) read the URL,
report tick progress if a callback is present, succeed (reporting 100) on a
success URL, stop with failure if the exit modal is visible (`err` = the
`isVisible` call threw, caught: continue waiting), else iterate.  The `fuel`
argument counts the remaining iterations. -/
def pollLoop (p : PollEnv) (timeoutSeconds : Nat) (hasCb : Bool) :
    Nat → Nat → List Ev × Bool
  | _, 0 => ([], false)
  | i, fuel + 1 =>
    let progressEv := if hasCb then [Ev.progress (tickProgress timeoutSeconds i)] else []
    if isSuccessUrl (p.url i) then
      (Ev.pollTick i :: progressEv ++ (if hasCb then [Ev.progress 100] else []), true)
    else
      match p.exitModal i with
      | VisRes.vis => (Ev.pollTick i :: progressEv, false)
      | _ =>
        let rest := pollLoop p timeoutSeconds hasCb (i + 1) fuel
        (Ev.pollTick i :: progressEv ++ rest.1, rest.2)

/-- Translation of `waitForUploadComplete`: `iterations = ⌊timeoutSeconds / 5⌋`
ticks starting at `i = 0`. -/
def waitForUploadComplete (p : PollEnv) (timeoutSeconds : Nat) (hasCb : Bool) :
    List Ev × Bool :=
  pollLoop p timeoutSeconds hasCb 0 (timeoutSeconds / 5)

/-! Section: Uploader construction (`constructor`, uploader.ts:46-55) -/

/-- Options record (`UploaderOptions`); `none` models an absent field. -/
structure UploaderOptions where
  session : Option String
  headless : Option Bool
  timeout : Option Nat
  debug : Option Bool

/-- JS truthiness of an optional string (`undefined` and `""` are falsy). -/
def truthyStr : Option String → Bool
  | none => false
  | some s => s ≠ ""

/-- Constructed uploader state. -/
structure TikTokUploader where
  session : Option String
  headless : Bool
  timeout : Nat
  debug : Bool
  cookies : Option (List Json)

/-- Translation of the constructor: `session = options.session ||
process.env.TIKTOK_SESSION` (JS `||`), defaults `headless = true`,
`timeout = 60000`, `debug = false`; cookies are parsed exactly when the
resulting session is truthy.  `envSession` is the environment variable
(`none` = unset), `decode` the JSON decoder oracle. -/
def TikTokUploader.init (decode : String → Option Json) (envSession : Option String)
    (options : UploaderOptions) : TikTokUploader :=
  let session := if truthyStr options.session then options.session else envSession
  { session := session
    headless := options.headless.getD true
    timeout := options.timeout.getD 60000
    debug := options.debug.getD false
    cookies :=
      match session with
      | some s => if truthyStr (some s) then some (parseSession decode s) else none
      | none => none }

/-! Section: Upload options and batch request records (`types.ts`) -/

/-- Visibility enumeration; the source literal `'private'` is rendered
`privateVis` (`private` is a Lean keyword). -/
inductive Visibility where
  | everyone
  | friends
  | privateVis
deriving DecidableEq

/-- Options of one `upload` call: the `visibility` field and whether an
`onProgress` callback was supplied (the callback itself is observed through
the `Ev.progress` trace). -/
structure UploadOptions where
  visibility : Option Visibility
  onProgress : Bool

/-- Batch request record (`VideoInfo`). -/
structure VideoInfo where
  video : String
  description : String
  visibility : Option Visibility

/-- Result record (`UploadResult`). -/
structure UploadResult where
  success : Bool
  videoId : Option String
  videoUrl : Option String
  status : String
  error : Option String
deriving DecidableEq

/-! Section: The browser world of one upload invocation

Every awaited Playwright call can reject; the `World` fixes which of the
awaited calls of this invocation (if any) does, along with all observable
answers.  `chromium.launch` itself is taken to succeed (a failed launch
creates no browser at all, so no handle exists to release). -/

structure World where
  fs : FileSystem
  /-- `browser.newContext` rejects.  This call sits between `chromium.launch`
  and the `try` block in the source. -/
  newContextThrows : Bool
  /-- some awaited call inside `setupContext`'s cookie-present path
  (`newPage`/`goto`/`addCookies`) rejects. -/
  setupThrows : Bool
  /-- `newPage`/`goto(TIKTOK_UPLOAD_URL)` rejects. -/
  gotoUploadThrows : Bool
  /-- `page.url()` observed after navigating to the upload URL. -/
  urlAfterUploadNav : String
  /-- `setInputFiles` rejects. -/
  attachThrows : Bool
  /-- visibility oracle for `dismissModals` labels. -/
  modalVisible : String → VisRes
  /-- the caption `click`/`fill`/`press` sequence rejects. -/
  captionThrows : Bool
  /-- candidates scanned by `findPostButton`. -/
  postButtons : List ButtonCandidate
  /-- the `scrollIntoViewIfNeeded`/`click` on the post button rejects. -/
  clickPostThrows : Bool
  /-- polling-phase oracle. -/
  poll : PollEnv

/-! Section: Orchestration (`setupContext` uploader.ts:108-121, `upload` uploader.ts:223-349) -/

/-- Translation of `setupContext`: with no decoded cookies, throw
`LoginRequired` (before any page action); otherwise open the base page, wait
1 s, install the cookies. -/
def setupContext (cookies : Option (List Json)) (setupThrows : Bool) :
    List Ev × Except UploadError Unit :=
  match cookies with
  | none => ([], Except.error UploadError.loginRequired)
  | some _ =>
    if setupThrows then ([Ev.gotoBase], Except.error (UploadError.jsError "setup failed"))
    else ([Ev.gotoBase, Ev.wait 1000, Ev.addCookies], Except.ok ())

/-- Body of the `try` block of `upload` (everything between `newContext`
succeeding and the `catch`/`finally`), returning its events and its result
(error = thrown exception). -/
def uploadBody (u : TikTokUploader) (w : World) (videoPath description : String)
    (onProgress : Bool) : List Ev × Except UploadError UploadResult :=
  let setup := setupContext u.cookies w.setupThrows
  match setup.2 with
  | Except.error e => (setup.1, Except.error e)
  | Except.ok _ =>
    if w.gotoUploadThrows then
      (setup.1 ++ [Ev.gotoUpload], Except.error (UploadError.jsError "goto failed"))
    else
      let ev1 := setup.1 ++ [Ev.gotoUpload, Ev.wait 3000] ++
        (if onProgress then [Ev.progress 10] else [])
      if strIncludes (toLowerJs w.urlAfterUploadNav) "login" then
        (ev1, Except.error UploadError.sessionExpired)
      else if w.attachThrows then
        (ev1 ++ [Ev.attachFile videoPath], Except.error (UploadError.jsError "setInputFiles failed"))
      else
        let ev2 := ev1 ++ [Ev.attachFile videoPath, Ev.wait 10000] ++
          (if onProgress then [Ev.progress 40] else [])
        let ev3 := ev2 ++ (dismissModals w.modalVisible).1
        if w.captionThrows then
          (ev3 ++ [Ev.fillDescription description], Except.error (UploadError.jsError "fill failed"))
        else
          let ev4 := ev3 ++ [Ev.fillDescription description, Ev.wait 1000] ++
            (if onProgress then [Ev.progress 60] else [])
          let ev5 := ev4 ++ [Ev.wait 500]
          match findPostButtonFrom w.postButtons with
          | none =>
            (ev5 ++ (if u.debug then [Ev.screenshot "debug_no_post_button.png"] else []),
             Except.error (UploadError.uploadFailed "Could not find Post button" none))
          | some _ =>
            if w.clickPostThrows then
              (ev5 ++ [Ev.clickPost], Except.error (UploadError.jsError "click failed"))
            else
              let ev6 := ev5 ++ [Ev.wait 500, Ev.clickPost] ++
                (if onProgress then [Ev.progress 70] else [])
              let timeoutSeconds := u.timeout / 1000
              let poll := waitForUploadComplete w.poll timeoutSeconds onProgress
              let ev7 := ev6 ++ poll.1
              if poll.2 then
                (ev7, Except.ok
                  { success := true, videoId := none, videoUrl := none,
                    status := "uploaded", error := none })
              else
                (ev7 ++ (if u.debug then [Ev.screenshot "debug_upload_failed.png"] else []),
                 Except.error (UploadError.uploadFailed "Upload did not complete successfully"
                   (if u.debug then some "debug_upload_failed.png" else none)))

/-- Rendering of JS `String(error)` (`Error.prototype.toString`:
`name: message`) for each thrown value, with the message texts of
`errors.ts`.  The too-large size rendering elides the source's
`toFixed(1)` digits (no theorem below depends on it). -/
def errorString : UploadError → String
  | UploadError.loginRequired =>
    "LoginRequiredError: No TikTok session found. Run \"tiktok-upload auth\" or set TIKTOK_SESSION environment variable."
  | UploadError.sessionExpired =>
    "SessionExpiredError: Session has expired. Please login again with tiktok-upload auth"
  | UploadError.uploadFailed m _ => "UploadFailedError: " ++ m
  | UploadError.videoNotFound p => "VideoNotFoundError: Video file not found: " ++ p
  | UploadError.videoTooLarge _ =>
    "VideoTooLargeError: Video too large: video exceeds limit of 287MB"
  | UploadError.unsupportedFormat e =>
    "UnsupportedFormatError: Unsupported video format: " ++ e ++ ". Supported formats: .mp4, .mov, .webm"
  | UploadError.jsError m => "Error: " ++ m

/-- Translation of `upload`: validate (throws propagate before any browser
work), report 0, launch, create the context (outside the `try` — a rejection
here escapes raw and skips the `finally`), then run the `try` body; the
`catch` re-throws the three typed errors unchanged and wraps anything else as
`UploadFailed(String(error))`; the `finally` closes the browser. -/
def upload (u : TikTokUploader) (w : World) (video description : String)
    (options : UploadOptions) : List Ev × Except UploadError UploadResult :=
  let onProgress := options.onProgress
  match validateVideo w.fs video with
  | Except.error e => ([], Except.error e)
  | Except.ok videoPath =>
    let ev0 := if onProgress then [Ev.progress 0] else []
    if w.newContextThrows then
      (ev0 ++ [Ev.launchBrowser, Ev.newContext],
       Except.error (UploadError.jsError "newContext failed"))
    else
      let body := uploadBody u w videoPath description onProgress
      let wrapped : Except UploadError UploadResult :=
        match body.2 with
        | Except.ok r => Except.ok r
        | Except.error UploadError.loginRequired => Except.error UploadError.loginRequired
        | Except.error UploadError.sessionExpired => Except.error UploadError.sessionExpired
        | Except.error (UploadError.uploadFailed m p) =>
          Except.error (UploadError.uploadFailed m p)
        | Except.error e => Except.error (UploadError.uploadFailed (errorString e) none)
      (ev0 ++ [Ev.launchBrowser, Ev.newContext] ++ body.1 ++ [Ev.closeBrowser], wrapped)

/-! Section: Batch runner (`uploadMany`, uploader.ts:358-388) -/

/-- Conversion performed by the `catch` of `uploadMany`: a thrown error
becomes `{success: false, status: 'failed', error: String(error)}`. -/
def caughtResult (res : Except UploadError UploadResult) : UploadResult :=
  match res with
  | Except.ok r => r
  | Except.error e =>
    { success := false, videoId := none, videoUrl := none,
      status := "failed", error := some (errorString e) }

/-- Loop of `uploadMany` from index `i`: upload each video in order (options
carry only its `visibility`; no `onProgress`), catch failures into results,
and record the `onVideoComplete` invocation `(index, result)` right after
each result is pushed.  `worlds i` is the browser world of request `i`. -/
def uploadManyFrom (u : TikTokUploader) (worlds : Nat → World) (i : Nat) :
    List VideoInfo → List UploadResult × List (Nat × UploadResult)
  | [] => ([], [])
  | v :: rest =>
    let result := caughtResult
      (upload u (worlds i) v.video v.description
        { visibility := v.visibility, onProgress := false }).2
    let next := uploadManyFrom u worlds (i + 1) rest
    (result :: next.1, (i, result) :: next.2)

/-- Translation of `uploadMany`: sequential loop from index 0, returning the
result list and the ordered `onVideoComplete` invocation list. -/
def uploadMany (u : TikTokUploader) (worlds : Nat → World) (videos : List VideoInfo) :
    List UploadResult × List (Nat × UploadResult) :=
  uploadManyFrom u worlds 0 videos

/-! Section: General lemmas -/

/-! Section: Concrete demonstration worlds -/

def demoFs : FileSystem :=
  { resolve := fun p => p, existsSync := fun _ => true, sizeBytes := fun _ => 1000000 }

def demoButton : ButtonCandidate :=
  { textContent := some "Post", boundingBox := some ⟨0, 0, 200, 50⟩, throws := false }

def demoPoll : PollEnv :=
  { url := fun _ => "https://www.tiktok.com/tiktokstudio/content",
    exitModal := fun _ => VisRes.notVis }

def demoWorld : World :=
  { fs := demoFs
    newContextThrows := false
    setupThrows := false
    gotoUploadThrows := false
    urlAfterUploadNav := TIKTOK_UPLOAD_URL
    attachThrows := false
    modalVisible := fun _ => VisRes.notVis
    captionThrows := false
    postButtons := [demoButton]
    clickPostThrows := false
    poll := demoPoll }

def demoUploader : TikTokUploader :=
  TikTokUploader.init (fun _ => none) none
    { session := some "sid", headless := none, timeout := none, debug := none }

def leakWorld : World := { demoWorld with newContextThrows := true }

def exitPoll : PollEnv :=
  { url := fun _ => "https://www.tiktok.com/upload",
    exitModal := fun j => if j = 1 then VisRes.vis else VisRes.notVis }

def exitWorld : World := { demoWorld with poll := exitPoll }

def noSessionUploader : TikTokUploader :=
  TikTokUploader.init (fun _ => none) none
    { session := none, headless := none, timeout := none, debug := none }

set_option maxHeartbeats 1000000

theorem tooLargeMb_iff (bytes : Nat) :
    tooLargeMb bytes = true ↔ 287 * 1024 * 1024 < bytes := by
  rw [tooLargeMb, decide_eq_true_iff]
  rw [MAX_VIDEO_SIZE_MB, gt_iff_lt, lt_div_iff₀ (by norm_num : (0:ℚ) < 1024 * 1024)]
  norm_cast

theorem jsRound_mono {a b : ℚ} (h : a ≤ b) : jsRound a ≤ jsRound b :=
  Int.floor_le_floor (by linarith)

theorem jsRound_le_95 {a : ℚ} (h : a ≤ 95) : jsRound a ≤ 95 := by
  have : jsRound a ≤ jsRound 95 := jsRound_mono h
  have h95 : jsRound (95 : ℚ) = 95 := by norm_num [jsRound]
  omega

theorem tickProgress_le_95 (T i : Nat) : tickProgress T i ≤ 95 :=
  jsRound_le_95 (min_le_left _ _)

theorem tickProgress_mono (T : Nat) {i j : Nat} (h : i ≤ j) :
    tickProgress T i ≤ tickProgress T j := by
  apply jsRound_mono
  apply min_le_min le_rfl
  rcases Nat.eq_zero_or_pos T with rfl | hT
  · norm_num
  · have hT' : (0:ℚ) < (T : ℚ) := by exact_mod_cast hT
    apply (div_le_div_iff_of_pos_right hT').mpr
    have : ((i:ℚ)) ≤ (j:ℚ) := by exact_mod_cast h
    nlinarith

theorem progressValues_append (l1 l2 : List Ev) :
    progressValues (l1 ++ l2) = progressValues l1 ++ progressValues l2 := by
  simp [progressValues]

theorem pollLoop_ok_progress (p : PollEnv) (T : Nat) :
    ∀ fuel i evs, pollLoop p T true i fuel = (evs, true) →
      (progressValues evs).head? = some (tickProgress T i) ∧
      List.Chain' (· ≤ ·) (progressValues evs) ∧
      (progressValues evs).getLast? = some 100 ∧
      ∀ v ∈ (progressValues evs).dropLast, v ≤ 95 := by
  intro fuel
  induction fuel with
  | zero => intro i evs h; simp [pollLoop] at h
  | succ n ih =>
    intro i evs h
    rw [pollLoop] at h
    simp only [eq_self_iff_true, if_true] at h
    split at h
    · -- success at tick i
      rw [Prod.mk.injEq] at h
      obtain ⟨hevs, -⟩ := h
      subst hevs
      refine ⟨by simp [progressValues], ?_, by simp [progressValues], ?_⟩
      · simp only [progressValues, List.filterMap]
        simp [List.chain'_cons]
        calc tickProgress T i ≤ 95 := tickProgress_le_95 T i
          _ ≤ 100 := by norm_num
      · simp [progressValues, tickProgress_le_95]
    · -- no success: exit-modal match
      split at h
      · -- exit modal visible: returns false, contradiction
        rw [Prod.mk.injEq] at h
        exact absurd h.2 (by simp)
      · -- recurse
        rcases hrec : pollLoop p T true (i + 1) n with ⟨evs2, b⟩
        rw [hrec] at h
        rw [Prod.mk.injEq] at h
        obtain ⟨hevs, hres⟩ := h
        simp only [] at hevs hres
        subst hres
        obtain ⟨ih1, ih2, ih3, ih4⟩ := ih (i + 1) evs2 hrec
        have hmono : tickProgress T i ≤ tickProgress T (i + 1) :=
          tickProgress_mono T (Nat.le_succ i)
        have hne : progressValues evs2 ≠ [] := by
          intro hnil; rw [hnil] at ih1; simp at ih1
        have hpv : progressValues evs = [tickProgress T i] ++ progressValues evs2 := by
          rw [← hevs]; simp [progressValues]
        refine ⟨?_, ?_, ?_, ?_⟩
        · rw [hpv]; simp
        · rw [hpv]
          simp only [List.singleton_append]
          rw [List.chain'_cons']
          refine ⟨?_, ih2⟩
          intro y hy
          rw [ih1] at hy
          simp at hy
          omega
        · rw [hpv, List.getLast?_append, ih3]
          rfl
        · intro v hv
          rw [hpv, List.dropLast_append_of_ne_nil _ hne] at hv
          rcases List.mem_append.mp hv with h1 | h2
          · simp at h1
            subst h1
            exact tickProgress_le_95 T i
          · exact ih4 v h2

theorem countEv_append (pr : Ev → Bool) (l1 l2 : List Ev) :
    countEv pr (l1 ++ l2) = countEv pr l1 + countEv pr l2 := by
  simp [countEv, List.countP_append]

theorem pollLoop_exit (p : PollEnv) (T : Nat) (hasCb : Bool) :
    ∀ m fuel i, m < fuel →
      (∀ j, j ≤ m → isSuccessUrl (p.url (i + j)) = false) →
      (∀ j, j < m → p.exitModal (i + j) ≠ VisRes.vis) →
      p.exitModal (i + m) = VisRes.vis →
      (pollLoop p T hasCb i fuel).2 = false ∧
      countEv isPollTickEv (pollLoop p T hasCb i fuel).1 = m + 1 := by
  intro m
  induction m with
  | zero =>
    intro fuel i hfuel hurl hmod hvis
    obtain ⟨f, rfl⟩ : ∃ f, fuel = f + 1 := ⟨fuel - 1, by omega⟩
    rw [pollLoop]
    have h0 : isSuccessUrl (p.url i) = false := by simpa using hurl 0 (Nat.le_refl 0)
    rw [h0]
    simp only [Bool.false_eq_true, if_false]
    rw [show p.exitModal i = VisRes.vis by simpa using hvis]
    cases hasCb <;> simp [countEv, isPollTickEv]
  | succ m ih =>
    intro fuel i hfuel hurl hmod hvis
    obtain ⟨f, rfl⟩ : ∃ f, fuel = f + 1 := ⟨fuel - 1, by omega⟩
    rw [pollLoop]
    have h0 : isSuccessUrl (p.url i) = false := by simpa using hurl 0 (Nat.zero_le _)
    rw [h0]
    simp only [Bool.false_eq_true, if_false]
    have hm0 : p.exitModal i ≠ VisRes.vis := by simpa using hmod 0 (Nat.succ_pos m)
    obtain ⟨hres, hcount⟩ := ih f (i + 1) (by omega)
      (fun j hj => by rw [Nat.add_right_comm]; exact hurl (j + 1) (by omega))
      (fun j hj => by rw [Nat.add_right_comm]; exact hmod (j + 1) (by omega))
      (by rw [Nat.add_right_comm]; exact hvis)
    cases hv : p.exitModal i
    · exact absurd hv hm0
    all_goals
      simp only []
      refine ⟨hres, ?_⟩
      simp only [countEv] at hcount
      cases hasCb <;>
        simp [countEv, List.countP_cons, List.countP_append, isPollTickEv] <;> omega

theorem progressValues_dismissScan (f : String → VisRes) :
    ∀ L, progressValues (dismissScan f L) = [] := by
  intro L
  induction L with
  | nil => simp [dismissScan, progressValues]
  | cons label rest ih =>
    rw [dismissScan]
    split
    · simp [progressValues]
    · simpa [progressValues] using ih

theorem dismissScan_none_visible (f : String → VisRes) :
    ∀ L, (∀ l ∈ L, f l ≠ VisRes.vis) → dismissScan f L = L.map Ev.probeModal := by
  intro L
  induction L with
  | nil => intro _; simp [dismissScan]
  | cons label rest ih =>
    intro hnone
    rw [dismissScan]
    split
    · exact absurd (by assumption) (hnone label (List.mem_cons_self label rest))
    · simp only [List.map_cons]
      rw [ih (fun l hl => hnone l (List.mem_cons_of_mem _ hl))]

theorem dismissScan_first_visible (f : String → VisRes) :
    ∀ L k (hk : k < L.length),
      f (L.get ⟨k, hk⟩) = VisRes.vis →
      (∀ j (hj : j < k), f (L.get ⟨j, Nat.lt_trans hj hk⟩) ≠ VisRes.vis) →
      dismissScan f L = (L.take k).map Ev.probeModal ++
        [Ev.probeModal (L.get ⟨k, hk⟩), Ev.clickModal (L.get ⟨k, hk⟩), Ev.wait 500] := by
  intro L
  induction L with
  | nil => intro k hk; exact absurd hk (by simp)
  | cons label rest ih =>
    intro k hk hvis hfirst
    cases k with
    | zero =>
      simp only [List.get] at hvis ⊢
      rw [dismissScan, hvis]
      simp
    | succ k =>
      have h0 : f label ≠ VisRes.vis := by
        have := hfirst 0 (Nat.succ_pos k)
        simpa using this
      rw [dismissScan]
      split
      · exact absurd (by assumption) h0
      · simp only [List.get] at hvis ⊢
        rw [ih k (Nat.lt_of_succ_lt_succ hk) hvis
          (fun j hj => by
            have := hfirst (j + 1) (Nat.succ_lt_succ hj)
            simpa using this)]
        simp [List.take]

theorem countEv_nil (pr : Ev → Bool) : countEv pr [] = 0 := rfl

theorem countEv_cons (pr : Ev → Bool) (a : Ev) (l : List Ev) :
    countEv pr (a :: l) = countEv pr l + (if pr a then 1 else 0) := by
  simp [countEv, List.countP_cons]

theorem countEv_setupContext_zero (pr : Ev → Bool) (c : Option (List Json)) (st : Bool)
    (h2 : pr Ev.gotoBase = false) (h12 : ∀ m, pr (Ev.wait m) = false)
    (h3 : pr Ev.addCookies = false) :
    countEv pr (setupContext c st).1 = 0 := by
  cases c <;> cases st <;> simp [setupContext, countEv, List.countP_cons, h2, h3, h12]

theorem countEv_dismissScan_zero (pr : Ev → Bool) (f : String → VisRes)
    (h6 : ∀ l, pr (Ev.probeModal l) = false)
    (h7 : ∀ l, pr (Ev.clickModal l) = false)
    (h12 : ∀ m, pr (Ev.wait m) = false) :
    ∀ L, countEv pr (dismissScan f L) = 0 := by
  intro L
  induction L with
  | nil => simp [dismissScan, countEv]
  | cons label rest ih =>
    rw [dismissScan]
    split
    · simp [countEv, List.countP_cons, h6, h7, h12]
    · rw [countEv_cons, ih, h6]
      simp

theorem countEv_pollLoop_zero (pr : Ev → Bool) (p : PollEnv) (T : Nat) (cb : Bool)
    (h10 : ∀ i, pr (Ev.pollTick i) = false)
    (h1 : ∀ n, pr (Ev.progress n) = false) :
    ∀ fuel i, countEv pr (pollLoop p T cb i fuel).1 = 0 := by
  intro fuel
  induction fuel with
  | zero => intro i; simp [pollLoop, countEv]
  | succ n ih =>
    intro i
    rw [pollLoop]
    split
    · cases cb <;> simp [countEv, List.countP_cons, h10, h1]
    · split
      · cases cb <;> simp [countEv, List.countP_cons, h10, h1]
      · cases cb <;>
          simp [countEv, List.countP_cons, List.countP_append, h10, h1] <;>
          simpa [countEv] using ih (i + 1)

theorem countEv_uploadBody_zero (u : TikTokUploader) (w : World) (vp d : String) (cb : Bool)
    (pr : Ev → Bool)
    (h1 : ∀ n, pr (Ev.progress n) = false)
    (h2 : pr Ev.gotoBase = false)
    (h3 : pr Ev.addCookies = false)
    (h4 : pr Ev.gotoUpload = false)
    (h5 : ∀ s, pr (Ev.attachFile s) = false)
    (h6 : ∀ l, pr (Ev.probeModal l) = false)
    (h7 : ∀ l, pr (Ev.clickModal l) = false)
    (h8 : ∀ s, pr (Ev.fillDescription s) = false)
    (h9 : pr Ev.clickPost = false)
    (h10 : ∀ i, pr (Ev.pollTick i) = false)
    (h11 : ∀ s, pr (Ev.screenshot s) = false)
    (h12 : ∀ m, pr (Ev.wait m) = false) :
    countEv pr (uploadBody u w vp d cb).1 = 0 := by
  have hs := countEv_setupContext_zero pr u.cookies w.setupThrows h2 h12 h3
  have hd := countEv_dismissScan_zero pr w.modalVisible h6 h7 h12 modalButtons
  have hp := countEv_pollLoop_zero pr w.poll (u.timeout / 1000) cb h10 h1
    (u.timeout / 1000 / 5) 0
  simp only [uploadBody, dismissModals, waitForUploadComplete]
  repeat' split
  all_goals
    simp only [countEv_append, countEv_cons, countEv_nil, h1, h2, h3, h4, h5, h6, h7, h8, h9,
      h10, h11, h12, hs, hd, hp, Bool.false_eq_true, if_false, Nat.add_zero, Nat.zero_add]

theorem progressValues_setupContext (c : Option (List Json)) (st : Bool) :
    progressValues (setupContext c st).1 = [] := by
  cases c <;> cases st <;> simp [setupContext, progressValues]

theorem uploadBody_ok (u : TikTokUploader) (w : World) (vp d : String) (cb : Bool)
    {evs : List Ev} {r : UploadResult}
    (h : uploadBody u w vp d cb = (evs, Except.ok r)) :
    (waitForUploadComplete w.poll (u.timeout / 1000) cb).2 = true ∧
    ∃ pre, evs = pre ++ (waitForUploadComplete w.poll (u.timeout / 1000) cb).1 ∧
      progressValues pre = (if cb then [10, 40, 60, 70] else []) := by
  simp only [uploadBody, dismissModals] at h
  cases cb
  · simp only [Bool.false_eq_true, if_false] at h ⊢
    repeat' split at h
    all_goals try (exact Except.noConfusion (congrArg Prod.snd h))
    rename_i hpoll
    rw [Prod.mk.injEq] at h
    obtain ⟨hevs, -⟩ := h
    refine ⟨hpoll, _, hevs.symm, ?_⟩
    simp only [progressValues_append, progressValues_setupContext,
      progressValues_dismissScan]
    rfl
  · simp only [eq_self_iff_true, if_true] at h ⊢
    repeat' split at h
    all_goals try (exact Except.noConfusion (congrArg Prod.snd h))
    rename_i hpoll
    rw [Prod.mk.injEq] at h
    obtain ⟨hevs, -⟩ := h
    refine ⟨hpoll, _, hevs.symm, ?_⟩
    simp only [progressValues_append, progressValues_setupContext,
      progressValues_dismissScan]
    rfl

theorem pv_assemble (A B : List Ev) (hA : progressValues A = [10, 40, 60, 70]) :
    progressValues ([Ev.progress 0] ++ [Ev.launchBrowser, Ev.newContext] ++ (A ++ B) ++
      [Ev.closeBrowser]) = [0, 10, 40, 60, 70] ++ progressValues B := by
  simp only [progressValues_append, hA,
    show progressValues [Ev.progress 0] = [0] from rfl,
    show progressValues [Ev.launchBrowser, Ev.newContext] = [] from rfl,
    show progressValues [Ev.closeBrowser] = [] from rfl,
    List.append_nil, List.nil_append, List.append_assoc]
  rfl

/-- C1 (amended): for every upload invocation that supplies a progress callback and
succeeds, the reported percentages are the fixed milestones 0, 10, 40, 60, 70 followed
by the polling-phase values `qs`; the polling values are non-decreasing among
themselves, every polling value before the final report is at most 95 (hence strictly
below 100), and the final reported value is exactly 100.  (The original claim's
non-decreasingness of the WHOLE sequence is false: the first polling value can drop
below the 70 milestone, see the counterexample.) -/
theorem upload_progress_monotone_from_polling (u : TikTokUploader) (w : World)
    (video d : String) (vis : Option Visibility) {evs : List Ev} {r : UploadResult}
    (h : upload u w video d ⟨vis, true⟩ = (evs, Except.ok r)) :
    ∃ qs, progressValues evs = [0, 10, 40, 60, 70] ++ qs ∧
      List.Chain' (· ≤ ·) qs ∧ qs.getLast? = some 100 ∧ ∀ v ∈ qs.dropLast, v ≤ 95 := by
  simp only [upload, eq_self_iff_true, if_true] at h
  split at h
  · exact Except.noConfusion (congrArg Prod.snd h)
  rename_i vp hval
  split at h
  · exact Except.noConfusion (congrArg Prod.snd h)
  rename_i hctx
  split at h
  case _ r2 heq =>
    have hbody : uploadBody u w vp d true =
        ((uploadBody u w vp d true).1, Except.ok r2) := by
      rw [← heq]
    obtain ⟨hpoll, pre, hevsb, hpv⟩ := uploadBody_ok u w vp d true hbody
    have hevs := congrArg Prod.fst h
    simp only [] at hevs
    subst hevs
    rw [hevsb]
    simp only [waitForUploadComplete] at hpoll hevsb ⊢
    rcases hpl : pollLoop w.poll (u.timeout / 1000) true 0 (u.timeout / 1000 / 5)
      with ⟨pevs, pb⟩
    rw [hpl] at hpoll
    simp only [] at hpoll
    subst hpoll
    obtain ⟨-, hchain, hlast, hdrop⟩ :=
      pollLoop_ok_progress w.poll (u.timeout / 1000) (u.timeout / 1000 / 5) 0 pevs hpl
    refine ⟨progressValues pevs, ?_, hchain, hlast, hdrop⟩
    exact pv_assemble pre pevs (by simpa using hpv)
  all_goals exact Except.noConfusion (congrArg Prod.snd h)

theorem uploadBody_no_cookies (u : TikTokUploader) (w : World) (vp d : String) (cb : Bool)
    (hc : u.cookies = none) :
    uploadBody u w vp d cb = ([], Except.error UploadError.loginRequired) := by
  simp [uploadBody, setupContext, hc]

/-- C2 (amended): every upload invocation that reaches browser launch AND whose
context creation succeeds closes the browser exactly once, as the final browser
action, on every exit path — success, every typed failure, and any unexpected error
in any step of the `try` body.  (The original claim fails when `browser.newContext`
itself rejects: that call sits outside the `try`/`finally`, see the counterexample.) -/
theorem browser_closed_once (u : TikTokUploader) (w : World) (video d : String)
    (o : UploadOptions) {vp : String}
    (hval : validateVideo w.fs video = Except.ok vp)
    (hctx : w.newContextThrows = false) :
    countEv isCloseEv (upload u w video d o).1 = 1 ∧
    countEv isLaunchEv (upload u w video d o).1 = 1 ∧
    (upload u w video d o).1.getLast? = some Ev.closeBrowser := by
  obtain ⟨vis2, cb⟩ := o
  have hclose := countEv_uploadBody_zero u w vp d cb isCloseEv
    (fun _ => rfl) rfl rfl rfl (fun _ => rfl) (fun _ => rfl) (fun _ => rfl) (fun _ => rfl)
    rfl (fun _ => rfl) (fun _ => rfl) (fun _ => rfl)
  have hlaunch := countEv_uploadBody_zero u w vp d cb isLaunchEv
    (fun _ => rfl) rfl rfl rfl (fun _ => rfl) (fun _ => rfl) (fun _ => rfl) (fun _ => rfl)
    rfl (fun _ => rfl) (fun _ => rfl) (fun _ => rfl)
  simp only [upload, hval, hctx, Bool.false_eq_true, if_false]
  refine ⟨?_, ?_, ?_⟩
  · cases cb <;>
      simp [countEv_append, countEv_cons, countEv_nil, hclose, isCloseEv]
  · cases cb <;>
      simp [countEv_append, countEv_cons, countEv_nil, hlaunch, isLaunchEv]
  · rw [List.getLast?_concat]

theorem init_cookies_none (decode : String → Option Json) (envSession : Option String)
    (options : UploaderOptions)
    (hparam : truthyStr options.session = false)
    (henv : truthyStr envSession = false) :
    (TikTokUploader.init decode envSession options).cookies = none := by
  simp only [TikTokUploader.init, hparam, Bool.false_eq_true, if_false]
  cases envSession with
  | none => rfl
  | some s => simp [henv]

/-- C6 (amended): with no truthy session from the constructor parameter or the
TIKTOK_SESSION environment variable (and hence no decoded cookies; the session file
only reaches the library as a constructor parameter via the CLI), an upload attempt
fails with LoginRequired before any page navigation — but only AFTER the browser is
launched: launch happens once, no upload-page navigation occurs, and the browser is
closed before the error propagates.  (The original "before any browser is launched"
is false, see the counterexample.) -/
theorem upload_no_session (decode : String → Option Json) (envSession : Option String)
    (options : UploaderOptions) (w : World) (video d : String) (o : UploadOptions)
    {vp : String}
    (hparam : truthyStr options.session = false)
    (henv : truthyStr envSession = false)
    (hval : validateVideo w.fs video = Except.ok vp)
    (hctx : w.newContextThrows = false) :
    (upload (TikTokUploader.init decode envSession options) w video d o).2 =
      Except.error UploadError.loginRequired ∧
    countEv isLaunchEv (upload (TikTokUploader.init decode envSession options) w video d o).1
      = 1 ∧
    countEv isGotoUploadEv
      (upload (TikTokUploader.init decode envSession options) w video d o).1 = 0 ∧
    (upload (TikTokUploader.init decode envSession options) w video d o).1.getLast? =
      some Ev.closeBrowser := by
  obtain ⟨vis2, cb⟩ := o
  have hc := init_cookies_none decode envSession options hparam henv
  have hbody := uploadBody_no_cookies (TikTokUploader.init decode envSession options)
    w vp d cb hc
  simp only [upload, hval, hctx, Bool.false_eq_true, if_false, hbody]
  refine ⟨trivial, ?_, ?_, ?_⟩
  · cases cb <;> simp [countEv_append, countEv_cons, countEv_nil, isLaunchEv]
  · cases cb <;> simp [countEv_append, countEv_cons, countEv_nil, isGotoUploadEv]
  · rw [List.getLast?_concat]

/-- C7: if during completion polling the exit-confirmation dialog becomes visible on
tick k before the timeout elapses (k + 1 at most the iteration count) and before any
success URL, polling stops on that tick — exactly k + 1 ticks run, not the full
iteration count — and the upload's outcome is the
`UploadFailed("Upload did not complete successfully")` failure produced without the
timeout elapsing (a failure, not one produced by the timeout running out). -/
theorem upload_exit_modal_stops (u : TikTokUploader) (w : World) (video d : String)
    (o : UploadOptions) {vp : String} {cs : List Json} {btn : ButtonCandidate} (k : Nat)
    (hval : validateVideo w.fs video = Except.ok vp)
    (hctx : w.newContextThrows = false)
    (hcook : u.cookies = some cs)
    (hsetup : w.setupThrows = false)
    (hgoto : w.gotoUploadThrows = false)
    (hlogin : strIncludes (toLowerJs w.urlAfterUploadNav) "login" = false)
    (hattach : w.attachThrows = false)
    (hcaption : w.captionThrows = false)
    (hbtn : findPostButtonFrom w.postButtons = some btn)
    (hclick : w.clickPostThrows = false)
    (hk : k < u.timeout / 1000 / 5)
    (hurl : ∀ j, j ≤ k → isSuccessUrl (w.poll.url j) = false)
    (hmod : ∀ j, j < k → w.poll.exitModal j ≠ VisRes.vis)
    (hvis : w.poll.exitModal k = VisRes.vis) :
    countEv isPollTickEv (upload u w video d o).1 = k + 1 ∧
    (upload u w video d o).2 = Except.error (UploadError.uploadFailed
      "Upload did not complete successfully"
      (if u.debug then some "debug_upload_failed.png" else none)) := by
  obtain ⟨vis2, cb⟩ := o
  obtain ⟨hpfalse, hpcount⟩ := pollLoop_exit w.poll (u.timeout / 1000) cb k
    (u.timeout / 1000 / 5) 0 hk
    (fun j hj => by simpa using hurl j hj)
    (fun j hj => by simpa using hmod j hj)
    (by simpa using hvis)
  have hdismiss := countEv_dismissScan_zero isPollTickEv w.modalVisible
    (fun _ => rfl) (fun _ => rfl) (fun _ => rfl) modalButtons
  have hsetupcount := countEv_setupContext_zero isPollTickEv u.cookies w.setupThrows
    rfl (fun _ => rfl) rfl
  simp only [upload, uploadBody, dismissModals, waitForUploadComplete, hval, hctx, hcook,
    hsetup, hgoto, hlogin, hattach, hcaption, hbtn, hclick, hpfalse, setupContext,
    Bool.false_eq_true, if_false]
  constructor
  · simp only [countEv] at hdismiss hpcount hsetupcount ⊢
    cases cb <;> cases hdbg : u.debug <;>
      simp [hdbg, List.countP_append, List.countP_cons, isPollTickEv, hpcount, hdismiss]
  · trivial

theorem tooLargeMb_eq_false_iff (bytes : Nat) :
    tooLargeMb bytes = false ↔ bytes ≤ 287 * 1024 * 1024 := by
  rw [← Bool.not_eq_true, tooLargeMb_iff]
  omega

/-- C3 (amended): session decoding is total; if the input decodes to a serialized
JSON array, `parseSession` returns exactly that array's elements (with no validation
that they are cookie records); for any input whose decode fails or yields a
non-array, it returns exactly the two records `sessionid`/`sessionid_ss` carrying
the raw input, domain `.tiktok.com`, path `/`.  (The original claim's "any other
input yields the two fallback records" is false for inputs that are base64 of a
JSON array of non-cookie values, see the counterexample.) -/
theorem parseSession_spec (decode : String → Option Json) (s : String) :
    (∀ l, decode s = some (Json.arr l) → parseSession decode s = l) ∧
    ((∀ l, decode s ≠ some (Json.arr l)) →
      parseSession decode s =
        [cookieJson ⟨"sessionid", s, ".tiktok.com", "/"⟩,
         cookieJson ⟨"sessionid_ss", s, ".tiktok.com", "/"⟩]) := by
  constructor
  · intro l hl
    simp [parseSession, hl]
  · intro hno
    rw [parseSession]
    rcases hd : decode s with - | j
    · rfl
    · cases j with
      | arr elems => exact absurd hd (hno elems)
      | null => rfl
      | bool b => rfl
      | num q => rfl
      | str t => rfl
      | obj fields => rfl

/-- C4: validation checks existence, then format, then size, reporting only the first
violation: a missing file fails with `VideoNotFound` regardless of extension or size;
an existing file with lower-cased extension outside the mp4/mov/webm whitelist fails
with `UnsupportedFormat` regardless of size; a supported-extension file over 287 MB
(bytes above 287·2^20, the exact floating-point comparison) fails with `TooLarge`;
and a supported-extension file at or under 287 MB validates. -/
theorem validateVideo_spec (fs : FileSystem) (p : String) :
    (fs.existsSync (fs.resolve p) = false →
      validateVideo fs p = Except.error (UploadError.videoNotFound (fs.resolve p))) ∧
    (fs.existsSync (fs.resolve p) = true →
      toLowerJs (extname (fs.resolve p)) ∉ SUPPORTED_FORMATS →
      validateVideo fs p =
        Except.error (UploadError.unsupportedFormat (toLowerJs (extname (fs.resolve p))))) ∧
    (fs.existsSync (fs.resolve p) = true →
      toLowerJs (extname (fs.resolve p)) ∈ SUPPORTED_FORMATS →
      287 * 1024 * 1024 < fs.sizeBytes (fs.resolve p) →
      validateVideo fs p =
        Except.error (UploadError.videoTooLarge (fs.sizeBytes (fs.resolve p)))) ∧
    (fs.existsSync (fs.resolve p) = true →
      toLowerJs (extname (fs.resolve p)) ∈ SUPPORTED_FORMATS →
      fs.sizeBytes (fs.resolve p) ≤ 287 * 1024 * 1024 →
      validateVideo fs p = Except.ok (fs.resolve p)) := by
  refine ⟨?_, ?_, ?_, ?_⟩
  · intro h1
    simp [validateVideo, h1]
  · intro h1 h2
    simp [validateVideo, h1, h2]
  · intro h1 h2 h3
    simp [validateVideo, h1, h2, (tooLargeMb_iff _).mpr h3]
  · intro h1 h2 h3
    simp [validateVideo, h1, h2, (tooLargeMb_eq_false_iff _).mpr h3]

/-- C5: the submit-control resolver returns exactly the first candidate that is
readable, whose trimmed text equals "Post" exactly, and whose bounding box is
non-null with width strictly above 100 (`List.find?` semantics); it returns null
exactly when no candidate satisfies all of that — so it never selects an
inexact-text or narrow candidate even among several text matches. -/
theorem findPostButton_spec (btns : List ButtonCandidate) :
    findPostButtonFrom btns = btns.find? isRealPostButton ∧
    (btns.find? isRealPostButton = none ↔ ∀ btn ∈ btns, isRealPostButton btn = false) := by
  constructor
  · induction btns with
    | nil => rfl
    | cons b rest ih =>
      rw [findPostButtonFrom]
      cases hb : b.throws with
      | true =>
        have hreal : isRealPostButton b = false := by simp [isRealPostButton, hb]
        rw [if_pos rfl, List.find?_cons_of_neg _ (by simp [hreal]), ih]
      | false =>
        rw [if_neg (by simp)]
        cases hbox : b.boundingBox with
        | none =>
          have hreal : isRealPostButton b = false := by simp [isRealPostButton, hb, hbox]
          rw [List.find?_cons_of_neg _ (by simp [hreal]), ih]
        | some box =>
          dsimp only
          by_cases hcond : trimJs (b.textContent.getD "") = "Post" ∧ box.width > 100
          · have hreal : isRealPostButton b = true := by
              simp [isRealPostButton, hb, hbox, hcond.1, hcond.2]
            rw [if_pos hcond, List.find?_cons_of_pos _ (by simp [hreal])]
          · have hreal : isRealPostButton b = false := by
              simp only [isRealPostButton, hb, hbox, Bool.not_false, Bool.true_and]
              rw [not_and_or] at hcond
              rcases hcond with hc | hc
              · simp [hc]
              · simp [hc]
            rw [if_neg hcond, List.find?_cons_of_neg _ (by simp [hreal]), ih]
  · rw [List.find?_eq_none]
    constructor
    · intro h btn hbtn
      simpa using h btn hbtn
    · intro h btn hbtn
      simp [h btn hbtn]

theorem uploadManyFrom_eq (u : TikTokUploader) (worlds : Nat → World) :
    ∀ (videos : List VideoInfo) (i : Nat),
      uploadManyFrom u worlds i videos =
        ((videos.enumFrom i).map (fun q => caughtResult
            (upload u (worlds q.1) q.2.video q.2.description
              ⟨q.2.visibility, false⟩).2),
         (videos.enumFrom i).map (fun q => (q.1, caughtResult
            (upload u (worlds q.1) q.2.video q.2.description
              ⟨q.2.visibility, false⟩).2))) := by
  intro videos
  induction videos with
  | nil => intro i; rfl
  | cons v rest ih =>
    intro i
    rw [uploadManyFrom, ih (i + 1)]
    simp [List.enumFrom]

/-- C8: `uploadMany` returns exactly one outcome per request, in request order — the
k-th outcome is the converted result of uploading the k-th request alone, with
thrown errors caught into a failed-status record carrying `String(error)` rather
than aborting the batch, so request k's failure cannot affect requests k+1..N — and
the per-item completion callback is invoked exactly once per request, with that
request's index and outcome, in request order. -/
theorem uploadMany_spec (u : TikTokUploader) (worlds : Nat → World)
    (videos : List VideoInfo) :
    (uploadMany u worlds videos).1 =
      videos.enum.map (fun q => caughtResult
        (upload u (worlds q.1) q.2.video q.2.description ⟨q.2.visibility, false⟩).2) ∧
    (uploadMany u worlds videos).2 =
      videos.enum.map (fun q => (q.1, caughtResult
        (upload u (worlds q.1) q.2.video q.2.description ⟨q.2.visibility, false⟩).2)) ∧
    (uploadMany u worlds videos).1.length = videos.length := by
  have h := uploadManyFrom_eq u worlds videos 0
  rw [uploadMany, h]
  refine ⟨rfl, rfl, ?_⟩
  simp [List.enum]

/-- C9 (amended): the modal dismissal scans Cancel, Not now, Close, Skip, Got it in
that order; for the first label whose element is visible within its bounded wait it
clicks the element, pauses briefly, and returns immediately (probing no further
labels); if no label matches it returns after probing every label without clicking.
In both cases the function's return value is void (`Unit`), not the boolean the
original claim states — see the counterexample. -/
theorem dismissModals_scan_spec (visible : String → VisRes) :
    ((∀ l ∈ modalButtons, visible l ≠ VisRes.vis) →
      dismissModals visible = (modalButtons.map Ev.probeModal, ())) ∧
    (∀ k (hk : k < modalButtons.length),
      visible (modalButtons.get ⟨k, hk⟩) = VisRes.vis →
      (∀ j (hj : j < k), visible (modalButtons.get ⟨j, Nat.lt_trans hj hk⟩) ≠ VisRes.vis) →
      dismissModals visible =
        ((modalButtons.take k).map Ev.probeModal ++
          [Ev.probeModal (modalButtons.get ⟨k, hk⟩),
           Ev.clickModal (modalButtons.get ⟨k, hk⟩), Ev.wait 500], ())) := by
  constructor
  · intro h
    rw [dismissModals, dismissScan_none_visible visible modalButtons h]
  · intro k hk hv hf
    rw [dismissModals, dismissScan_first_visible visible modalButtons k hk hv hf]

/-- C10: the visibility option is never read: two upload invocations identical except
for the visibility field perform identical browser actions and produce identical
outcomes, and `uploadMany` over requests differing only in their visibility fields
returns identical outcome and callback sequences. -/
theorem visibility_not_read (u : TikTokUploader) (w : World) (video d : String) (cb : Bool)
    (v1 v2 : Option Visibility) :
    upload u w video d ⟨v1, cb⟩ = upload u w video d ⟨v2, cb⟩ ∧
    ∀ (worlds : Nat → World) (videos : List VideoInfo)
      (f : VideoInfo → Option Visibility),
      uploadMany u worlds (videos.map (fun v => { v with visibility := f v })) =
        uploadMany u worlds videos := by
  constructor
  · rfl
  · intro worlds videos f
    have key : ∀ (vids : List VideoInfo) (i : Nat),
        uploadManyFrom u worlds i (vids.map (fun v => { v with visibility := f v })) =
          uploadManyFrom u worlds i vids := by
      intro vids
      induction vids with
      | nil => intro i; rfl
      | cons v rest ih =>
        intro i
        simp only [List.map_cons, uploadManyFrom]
        rw [ih (i + 1)]
        rfl
    exact key videos 0



theorem demo_validate : validateVideo demoFs "video.mp4" = Except.ok "video.mp4" := by
  have hsize : tooLargeMb 1000000 = false := (tooLargeMb_eq_false_iff _).mpr (by decide)
  simp only [validateVideo, demoFs]
  rw [if_neg (by decide), if_neg (by decide), if_neg (by simp [hsize])]

theorem demo_tick0 : tickProgress 60 0 = 8 := by
  norm_num [tickProgress, jsRound, min_def]

theorem demo_findPost : findPostButtonFrom [demoButton] = some demoButton := by
  rw [findPostButtonFrom]
  rw [if_neg (by decide)]
  simp only [demoButton]
  rw [if_pos ⟨by decide, by norm_num⟩]

theorem demo_poll_succ :
    pollLoop demoPoll 60 true 0 12 = ([Ev.pollTick 0, Ev.progress 8, Ev.progress 100], true) := by
  have h : pollLoop demoPoll 60 true 0 (11 + 1) =
      ([Ev.pollTick 0, Ev.progress 8, Ev.progress 100], true) := by
    rw [pollLoop]
    rw [if_pos (by decide)]
    simp [demo_tick0]
  exact h

theorem demo_upload_eval :
    upload demoUploader demoWorld "video.mp4" "cap" ⟨none, true⟩ =
      ([Ev.progress 0, Ev.launchBrowser, Ev.newContext, Ev.gotoBase, Ev.wait 1000,
        Ev.addCookies, Ev.gotoUpload, Ev.wait 3000, Ev.progress 10,
        Ev.attachFile "video.mp4", Ev.wait 10000, Ev.progress 40,
        Ev.probeModal "Cancel", Ev.probeModal "Not now", Ev.probeModal "Close",
        Ev.probeModal "Skip", Ev.probeModal "Got it",
        Ev.fillDescription "cap", Ev.wait 1000, Ev.progress 60, Ev.wait 500,
        Ev.wait 500, Ev.clickPost, Ev.progress 70,
        Ev.pollTick 0, Ev.progress 8, Ev.progress 100, Ev.closeBrowser],
       Except.ok ⟨true, none, none, "uploaded", none⟩) := by
  have hcook : demoUploader.cookies = some (parseSession (fun _ => none) "sid") := rfl
  have htimeout : demoUploader.timeout = 60000 := rfl
  have hdebug : demoUploader.debug = false := rfl
  simp only [upload, demo_validate, uploadBody, setupContext, dismissModals,
    waitForUploadComplete, demoWorld, hcook, htimeout, hdebug, Bool.false_eq_true, if_false,
    eq_self_iff_true, if_true]
  rw [if_neg (by decide)]
  simp only [demo_findPost]
  rw [if_pos (by decide)]
  norm_num
  rw [demo_poll_succ]
  simp [dismissScan, modalButtons]

/-- C1 counterexample: at the default 60 s timeout, a successful upload with a
callback reports 0, 10, 40, 60, 70, 8, 100 — the first polling tick reports
`round(min(95, 500/60)) = 8` right after the milestone 70, so the full reported
sequence is not non-decreasing. -/
theorem upload_progress_not_monotone_cx :
    progressValues (upload demoUploader demoWorld "video.mp4" "cap" ⟨none, true⟩).1 =
      [0, 10, 40, 60, 70, 8, 100] ∧
    ¬ List.Chain' (· ≤ ·)
      (progressValues (upload demoUploader demoWorld "video.mp4" "cap" ⟨none, true⟩).1) := by
  have hpv : progressValues
      (upload demoUploader demoWorld "video.mp4" "cap" ⟨none, true⟩).1 =
      [0, 10, 40, 60, 70, 8, 100] := by
    rw [demo_upload_eval]
    rfl
  refine ⟨hpv, ?_⟩
  rw [hpv]
  simp [List.chain'_cons]

/-- C1 witness: the amended theorem applied to the concrete successful upload run. -/
theorem upload_progress_spec_witness :
    ∃ qs, progressValues (upload demoUploader demoWorld "video.mp4" "cap" ⟨none, true⟩).1 =
        [0, 10, 40, 60, 70] ++ qs ∧ List.Chain' (· ≤ ·) qs ∧ qs.getLast? = some 100 ∧
        ∀ v ∈ qs.dropLast, v ≤ 95 :=
  upload_progress_monotone_from_polling demoUploader demoWorld "video.mp4" "cap" none
    (by rw [demo_upload_eval])

/-- C2 counterexample: when `browser.newContext` rejects, the invocation has launched
the browser (one launch event) but never closes it (zero close events); the raw
error escapes unwrapped. -/
theorem browser_leak_cx :
    countEv isCloseEv (upload demoUploader leakWorld "video.mp4" "cap" ⟨none, false⟩).1 = 0 ∧
    countEv isLaunchEv (upload demoUploader leakWorld "video.mp4" "cap" ⟨none, false⟩).1 = 1 ∧
    (upload demoUploader leakWorld "video.mp4" "cap" ⟨none, false⟩).2 =
      Except.error (UploadError.jsError "newContext failed") := by
  have h : upload demoUploader leakWorld "video.mp4" "cap" ⟨none, false⟩ =
      ([Ev.launchBrowser, Ev.newContext],
       Except.error (UploadError.jsError "newContext failed")) := by
    simp only [upload, leakWorld, demoWorld, demo_validate, Bool.false_eq_true, if_false,
      eq_self_iff_true, if_true]
    rfl
  rw [h]
  exact ⟨rfl, rfl, rfl⟩

/-- C2 witness: the amended theorem applied to a concrete successful run. -/
theorem browser_closed_once_witness :
    countEv isCloseEv (upload demoUploader demoWorld "video.mp4" "cap" ⟨none, false⟩).1 = 1 ∧
    countEv isLaunchEv (upload demoUploader demoWorld "video.mp4" "cap" ⟨none, false⟩).1 = 1 ∧
    (upload demoUploader demoWorld "video.mp4" "cap" ⟨none, false⟩).1.getLast? =
      some Ev.closeBrowser :=
  browser_closed_once demoUploader demoWorld "video.mp4" "cap" ⟨none, false⟩
    demo_validate rfl

/-- C3 counterexample: the input `"WzFd"` — base64 of `"[1]"` — is not an encoding of
a list of cookie records, yet decoding returns the one-element list `[1]` unchanged,
not the two synthesized `sessionid` records the claim requires for such input. -/
theorem parseSession_nonrecord_array_cx :
    parseSession decodeWzFd "WzFd" = [Json.num 1] ∧
    (parseSession decodeWzFd "WzFd").length = 1 ∧
    parseSession decodeWzFd "WzFd" ≠
      [cookieJson ⟨"sessionid", "WzFd", ".tiktok.com", "/"⟩,
       cookieJson ⟨"sessionid_ss", "WzFd", ".tiktok.com", "/"⟩] := by
  have h : parseSession decodeWzFd "WzFd" = [Json.num 1] := by
    simp [parseSession, decodeWzFd]
  refine ⟨h, by rw [h]; rfl, ?_⟩
  rw [h]
  intro hc
  exact absurd (congrArg List.length hc) (by simp)

/-- C3 witness: the theorem applied to a concrete decoder and input, discharging the
array-decode hypothesis. -/
theorem parseSession_spec_witness :
    parseSession (fun _ => some (Json.arr [])) "x" = [] :=
  (parseSession_spec (fun _ => some (Json.arr [])) "x").1 [] rfl

/-- C4 witness: the success branch of the theorem at a concrete filesystem. -/
theorem validateVideo_spec_witness :
    validateVideo demoFs "video.mp4" = Except.ok "video.mp4" :=
  (validateVideo_spec demoFs "video.mp4").2.2.2 rfl (by decide) (by decide)

/-- C5 witness: the theorem instantiated at a concrete candidate list. -/
theorem findPostButton_spec_witness :
    findPostButtonFrom [demoButton] = List.find? isRealPostButton [demoButton] ∧
    (List.find? isRealPostButton [demoButton] = none ↔
      ∀ btn ∈ [demoButton], isRealPostButton btn = false) :=
  findPostButton_spec [demoButton]

/-- C6 counterexample: with no session at all the attempt does fail with
LoginRequired, but the trace contains a browser-launch event: `chromium.launch` at
uploader.ts:240 runs before `setupContext` throws at uploader.ts:110. -/
theorem login_required_after_launch_cx :
    (upload noSessionUploader demoWorld "video.mp4" "cap" ⟨none, false⟩).2 =
      Except.error UploadError.loginRequired ∧
    countEv isLaunchEv
      (upload noSessionUploader demoWorld "video.mp4" "cap" ⟨none, false⟩).1 = 1 := by
  have h : upload noSessionUploader demoWorld "video.mp4" "cap" ⟨none, false⟩ =
      ([Ev.launchBrowser, Ev.newContext, Ev.closeBrowser],
       Except.error UploadError.loginRequired) := by
    have hbody := uploadBody_no_cookies noSessionUploader demoWorld "video.mp4" "cap"
      false rfl
    simp only [upload, demoWorld, demo_validate, hbody, Bool.false_eq_true, if_false]
    rfl
  rw [h]
  exact ⟨rfl, rfl⟩

/-- C6 witness: the amended theorem at a concrete optionless constructor call. -/
theorem upload_no_session_witness :
    (upload (TikTokUploader.init (fun _ => none) none
        ⟨none, none, none, none⟩) demoWorld "video.mp4" "cap" ⟨none, false⟩).2 =
      Except.error UploadError.loginRequired ∧
    countEv isLaunchEv (upload (TikTokUploader.init (fun _ => none) none
      ⟨none, none, none, none⟩) demoWorld "video.mp4" "cap" ⟨none, false⟩).1 = 1 ∧
    countEv isGotoUploadEv (upload (TikTokUploader.init (fun _ => none) none
      ⟨none, none, none, none⟩) demoWorld "video.mp4" "cap" ⟨none, false⟩).1 = 0 ∧
    (upload (TikTokUploader.init (fun _ => none) none
      ⟨none, none, none, none⟩) demoWorld "video.mp4" "cap" ⟨none, false⟩).1.getLast? =
      some Ev.closeBrowser :=
  upload_no_session (fun _ => none) none ⟨none, none, none, none⟩ demoWorld
    "video.mp4" "cap" ⟨none, false⟩ rfl rfl demo_validate rfl

/-- C7 witness: exit modal on tick 1 of 12 stops polling after 2 ticks. -/
theorem upload_exit_modal_stops_witness :
    countEv isPollTickEv (upload demoUploader exitWorld "video.mp4" "cap" ⟨none, false⟩).1
      = 2 ∧
    (upload demoUploader exitWorld "video.mp4" "cap" ⟨none, false⟩).2 =
      Except.error (UploadError.uploadFailed "Upload did not complete successfully" none) :=
  upload_exit_modal_stops demoUploader exitWorld "video.mp4" "cap" ⟨none, false⟩ 1
    demo_validate rfl rfl rfl rfl (by decide) rfl rfl demo_findPost rfl (by decide)
    (by decide) (by decide) (by decide)

/-- C9 counterexample: the source's `dismissModals` has return type `Promise<void>`:
in a scenario where Cancel is visible (and is clicked) and in one where nothing is
visible, the returned value is the same `()` — it cannot be the claimed
true-vs-false result. -/
theorem dismissModals_void_return_cx :
    (dismissModals (fun l => if l = "Cancel" then VisRes.vis else VisRes.notVis)).2 =
      (dismissModals (fun _ => VisRes.notVis)).2 ∧
    (dismissModals (fun l => if l = "Cancel" then VisRes.vis else VisRes.notVis)).1 =
      [Ev.probeModal "Cancel", Ev.clickModal "Cancel", Ev.wait 500] ∧
    (dismissModals (fun _ => VisRes.notVis)).1 = modalButtons.map Ev.probeModal :=
  ⟨rfl, by decide, by decide⟩

/-- C9 witness: the first-visible-label branch applied to a concrete visibility
oracle (Close visible, Cancel and Not now not visible). -/
theorem dismissModals_scan_spec_witness :
    dismissModals (fun l => if l = "Close" then VisRes.vis else VisRes.notVis) =
      ((modalButtons.take 2).map Ev.probeModal ++
        [Ev.probeModal (modalButtons.get ⟨2, by decide⟩),
         Ev.clickModal (modalButtons.get ⟨2, by decide⟩), Ev.wait 500], ()) :=
  (dismissModals_scan_spec _).2 2 (by decide) (by decide)
    (fun j hj => by interval_cases j <;> simp [modalButtons])
